import Mathlib

/-!
Verification of the browser client script `src/client/src/index.ts`.

The script is:

```
let ws;
const DEBUG = true;

(() => {
    ws = new WebSocket(`${document.documentURI.replace(/https?/, 'ws')}ws`);

    ws.onopen = e => {
        console.log("Websocket connection established!");
    }

    ws.onmessage = e => {
        if (!e.data.packet_type)
            console.error(`Invalid packet recieved: ${JSON.stringify(e.data)}`);

        if (DEBUG)
            console.log(`Packet recieved: ${JSON.stringify(e.data)}`);
    }
})();
```

We shallowly embed it below:

* `replaceHttpAux` / `documentReplace` embed the JavaScript call
  `s.replace(/https?/, 'ws')`: the regular expression has no `g` flag,
  so only the leftmost match is replaced, and `s?` is greedy, so at the
  leftmost position where `http` matches, a directly following `s` is
  included in the match.  The whole matched token is replaced by the
  literal `ws`.
* `computeEndpoint` embeds the template literal
  `` `${document.documentURI.replace(/https?/, 'ws')}ws` ``: the
  replaced address with the literal characters `ws` appended.
* `JSValue` models a JavaScript value as delivered in `e.data`
  (numbers are modelled as integers; the claims only mention the
  numeric value 0).  `truthy` is JavaScript truthiness, `getField` is
  property access (yielding `undefined` when the property is absent or
  the value is not an object), and `stringify` embeds
  `JSON.stringify` as used in the template literals (an
  `undefined`-valued property is omitted; a top-level `undefined`
  renders as the text `undefined` inside the template literal).
* `onopen` and `onmessage` embed the two handlers as pure functions
  from the triggering payload to the list of console emissions they
  perform, in order.  Log levels: the `console.log` in the open
  handler is the info level, `console.error` is the error level, and
  the `DEBUG`-gated `console.log` in the message handler is the debug
  level, matching the taxonomy used in the documentation.
* `ClientState` / `initState` / `handleEvent` / `run` embed the whole
  program: module state is the handle `ws` (identified by the URL it
  was opened on) plus, as observation instrumentation, the list of
  connection-open operations performed and the accumulated console
  log.  `initState` is the immediately-invoked function expression;
  `handleEvent` dispatches an open or message event to the installed
  handler.
-/

inductive LogLevel where
  | info
  | error
  | debug
deriving DecidableEq, BEq

structure LogEntry where
  level : LogLevel
  message : String
deriving DecidableEq, BEq

/-- A JavaScript value, as can appear in `e.data`. -/
inductive JSValue where
  | jnull
  | jundefined
  | jbool (b : Bool)
  | jnum (n : Int)
  | jstr (s : String)
  | jobj (fields : List (String × JSValue))

/-- JavaScript truthiness: `null`, `undefined`, `false`, `0` and the
empty string are falsy; every object is truthy. -/
def truthy : JSValue → Bool
  | .jnull => false
  | .jundefined => false
  | .jbool b => b
  | .jnum n => n != 0
  | .jstr s => s != ""
  | .jobj _ => true

/-- JavaScript property access `v.k`: the first binding of `k` in an
object, `undefined` otherwise (property access on a primitive yields
`undefined`; the transport never delivers `null`/`undefined` as
`e.data`). -/
def getField (v : JSValue) (k : String) : JSValue :=
  match v with
  | .jobj fs =>
    match fs.find? (fun p => p.1 == k) with
    | some p => p.2
    | none => .jundefined
  | _ => .jundefined

/-- Whether an object payload has a `k` property at all (presence, as
opposed to the truthiness of its value). -/
def hasField (v : JSValue) (k : String) : Bool :=
  match v with
  | .jobj fs => fs.any (fun p => p.1 == k)
  | _ => false

/-- JSON string quoting as performed by `JSON.stringify` (quotes and
backslashes escaped; no claim exercises control characters). -/
def quoteStr (s : String) : String :=
  "\"" ++ String.join (s.data.map fun c =>
    if c = '"' then "\\\"" else if c = '\\' then "\\\\" else String.singleton c) ++ "\""

mutual

/-- Embedding of `JSON.stringify` as rendered inside the template
literals of the script: a top-level `undefined` renders as the text
`undefined`. -/
def stringify : JSValue → String
  | .jnull => "null"
  | .jundefined => "undefined"
  | .jbool true => "true"
  | .jbool false => "false"
  | .jnum n => toString n
  | .jstr s => quoteStr s
  | .jobj fs => "\x7b" ++ stringifyFields fs ++ "\x7d"

/-- Serialisation of an object body: `undefined`-valued properties are
omitted, the remaining ones are comma-separated `"key":value` pairs. -/
def stringifyFields : List (String × JSValue) → String
  | [] => ""
  | (_, .jundefined) :: rest => stringifyFields rest
  | (k, v) :: rest =>
    let tail := stringifyFields rest
    quoteStr k ++ ":" ++ stringify v ++ (if tail = "" then "" else "," ++ tail)

end

/-- The constant `DEBUG`, fixed at `true` in the script. -/
def DEBUG : Bool := true

/-- One step of `String.prototype.replace(/https?/, 'ws')` on the
character list: the leftmost occurrence of `http`, greedily extended
by a directly following `s`, is replaced by `ws`; everything else is
kept. -/
def replaceHttpAux : List Char → List Char
  | 'h' :: 't' :: 't' :: 'p' :: 's' :: rest => 'w' :: 's' :: rest
  | 'h' :: 't' :: 't' :: 'p' :: rest => 'w' :: 's' :: rest
  | c :: rest => c :: replaceHttpAux rest
  | [] => []

/-- Embedding of the call `documentURI.replace(/https?/, 'ws')`. -/
def documentReplace (s : String) : String :=
  ⟨replaceHttpAux s.data⟩

/-- The endpoint address `` `${documentURI.replace(/https?/, 'ws')}ws` ``. -/
def computeEndpoint (documentURI : String) : String :=
  documentReplace documentURI ++ "ws"

/-- The `ws.onopen` handler: its console emissions. -/
def onopen : List LogEntry :=
  [⟨LogLevel.info, "Websocket connection established!"⟩]

/-- The `ws.onmessage` handler: its console emissions on a message
event carrying `payload` as `e.data`, in program order. -/
def onmessage (payload : JSValue) : List LogEntry :=
  (if !truthy (getField payload "packet_type") then
    [⟨LogLevel.error, "Invalid packet recieved: " ++ stringify payload⟩]
  else []) ++
  (if DEBUG then
    [⟨LogLevel.debug, "Packet recieved: " ++ stringify payload⟩]
  else [])

/-- The module state: the handle `ws` (identified by the URL it was
opened on), plus observation instrumentation: every connection-open
operation performed and the accumulated console log. -/
structure ClientState where
  ws : Option String
  opened : List String
  logs : List LogEntry
deriving DecidableEq

/-- An event delivered by the transport to the installed callbacks. -/
inductive Event where
  | openEvt
  | message (payload : JSValue)

/-- The immediately-invoked function expression: open one `WebSocket`
to the computed endpoint and store the handle in `ws`. -/
def initState (documentURI : String) : ClientState :=
  { ws := some (computeEndpoint documentURI)
    opened := [computeEndpoint documentURI]
    logs := [] }

/-- Dispatch of one transport event to the installed handler.  Each
handler only appends console output; neither touches `ws` nor opens a
connection. -/
def handleEvent (s : ClientState) (e : Event) : ClientState :=
  match e with
  | .openEvt => { s with logs := s.logs ++ onopen }
  | .message p => { s with logs := s.logs ++ onmessage p }

/-- A whole program run: startup followed by an arbitrary sequence of
transport events. -/
def run (documentURI : String) (events : List Event) : ClientState :=
  events.foldl handleEvent (initState documentURI)

/-- Whether the handler output contains an error-level emission. -/
def emitsError (logs : List LogEntry) : Bool :=
  logs.any (fun e => e.level == LogLevel.error)

/-- Whether a character list contains the four-character substring
that the regular expression of the script can match at all (an
occurrence of `http`). -/
def containsHttp : List Char → Bool
  | 'h' :: 't' :: 't' :: 'p' :: _ => true
  | _ :: rest => containsHttp rest
  | [] => false

/- ### Helper lemmas -/

theorem data_mk (l : List Char) : (String.mk l).data = l := rfl

/-- On a list with no occurrence of `http`, the replacement is the
identity. -/
theorem replaceHttpAux_of_not_contains :
    ∀ l : List Char, containsHttp l = false → replaceHttpAux l = l := by
  intro l
  induction l using replaceHttpAux.induct <;>
    simp_all [replaceHttpAux, containsHttp]

/-- A cons that does not start an occurrence of `http` is kept and the
search continues in the tail. -/
theorem replaceHttpAux_cons (c : Char) (L : List Char)
    (h : ∀ r : List Char, c :: L ≠ 'h' :: 't' :: 't' :: 'p' :: r) :
    replaceHttpAux (c :: L) = c :: replaceHttpAux L := by
  rw [replaceHttpAux.eq_def]
  split
  · rename_i heq; exact absurd heq (h _)
  · rename_i heq; exact absurd heq (h _)
  · rename_i heq
    injection heq with h1 h2
    subst h1; subst h2; rfl
  · rename_i heq; exact absurd heq (by simp)

theorem containsHttp_cons (c : Char) (L : List Char)
    (h : ∀ r : List Char, c :: L ≠ 'h' :: 't' :: 't' :: 'p' :: r) :
    containsHttp (c :: L) = containsHttp L := by
  rw [containsHttp.eq_def]
  split
  · rename_i heq; exact absurd heq (h _)
  · rename_i heq
    injection heq with h1 h2
    subst h1; subst h2; rfl
  · rename_i heq; exact absurd heq (by simp)

/-- An occurrence of `http` cannot straddle the boundary between a
prefix and a suffix that itself starts with `http`. -/
theorem not_http_straddle (c : Char) (rest b : List Char)
    (hx : ∀ r : List Char, c :: rest ≠ 'h' :: 't' :: 't' :: 'p' :: r) :
    ∀ r : List Char,
      c :: (rest ++ 'h' :: 't' :: 't' :: 'p' :: b) ≠ 'h' :: 't' :: 't' :: 'p' :: r := by
  rcases rest with _ | ⟨x, _ | ⟨y, _ | ⟨z, rest3⟩⟩⟩
  · intro r hEq; simp +decide at hEq
  · intro r hEq; simp +decide at hEq
  · intro r hEq; simp +decide at hEq
  · intro r hEq
    simp only [List.cons_append, List.cons.injEq] at hEq
    obtain ⟨h1, h2, h3, h4, -⟩ := hEq
    exact hx rest3 (by rw [h1, h2, h3, h4])

/-- The replacement acts on the first occurrence of `http`: a prefix
with no occurrence passes through unchanged, whatever follows. -/
theorem replaceHttpAux_append :
    ∀ a b : List Char, containsHttp a = false →
    replaceHttpAux (a ++ 'h' :: 't' :: 't' :: 'p' :: b) =
      a ++ replaceHttpAux ('h' :: 't' :: 't' :: 'p' :: b) := by
  intro a
  induction a with
  | nil => intro b h; rfl
  | cons c rest ih =>
    intro b h
    have hx : ∀ r : List Char, c :: rest ≠ 'h' :: 't' :: 't' :: 'p' :: r := by
      intro r hEq
      rw [hEq] at h
      simp [containsHttp] at h
    have hrest : containsHttp rest = false := by
      rw [containsHttp_cons c rest hx] at h
      exact h
    rw [List.cons_append, replaceHttpAux_cons c _ (not_http_straddle c rest b hx),
      ih b hrest, List.cons_append]

/-- What the code actually computes for a secure page address: the
matched token `https` is replaced wholesale by `ws`, so the result
starts with `ws://`, not `wss://`. -/
theorem endpoint_https (rest : String) :
    computeEndpoint ("https://" ++ rest) = "ws://" ++ rest ++ "ws" := by
  apply String.ext
  simp only [computeEndpoint, documentReplace, String.data_append, data_mk]
  show replaceHttpAux
      (('h' :: 't' :: 't' :: 'p' :: 's' :: ':' :: '/' :: '/' :: []) ++ rest.data) ++ ['w', 's'] =
    ('w' :: 's' :: ':' :: '/' :: '/' :: []) ++ rest.data ++ ['w', 's']
  simp only [List.cons_append, List.nil_append]
  rfl

/-- Neither handler ever writes the module-level handle. -/
theorem handleEvent_ws (s : ClientState) (e : Event) :
    (handleEvent s e).ws = s.ws := by
  cases e <;> rfl

/-- Neither handler ever opens a connection. -/
theorem handleEvent_opened (s : ClientState) (e : Event) :
    (handleEvent s e).opened = s.opened := by
  cases e <;> rfl

theorem foldl_handleEvent_ws (events : List Event) :
    ∀ s : ClientState, (events.foldl handleEvent s).ws = s.ws := by
  induction events with
  | nil => intro s; rfl
  | cons e es ih =>
    intro s
    rw [List.foldl_cons, ih, handleEvent_ws]

theorem foldl_handleEvent_opened (events : List Event) :
    ∀ s : ClientState, (events.foldl handleEvent s).opened = s.opened := by
  induction events with
  | nil => intro s; rfl
  | cons e es ih =>
    intro s
    rw [List.foldl_cons, ih, handleEvent_opened]

/- ### Claim theorems -/

/-- Claim C1 (code bug): the documentation states that an
`https://`-prefixed page address maps to a `wss://`-prefixed endpoint,
but the code replaces the whole matched token `https` with `ws`, so
the endpoint for `https://host/path` is `ws://host/pathws`, which does
not begin with `wss://`. -/
theorem c1_https_endpoint_not_wss :
    computeEndpoint "https://host/path" = "ws://host/pathws" ∧
    ("wss://".data.isPrefixOf (computeEndpoint "https://host/path").data) = false := by
  constructor
  · rfl
  · decide

/-- Claim C2 (counterexample): the error log is not emitted exactly
when the `packet_type` field is missing: the payload whose
`packet_type` field is present with value `""` still triggers the
error log. -/
theorem c2_error_not_iff_missing_field :
    ¬ ((emitsError (onmessage (JSValue.jobj [("packet_type", JSValue.jstr "")])) = true) ↔
       (hasField (JSValue.jobj [("packet_type", JSValue.jstr "")]) "packet_type" = false)) := by
  decide

/-- Claim C2 (amended): the error log (text
`Invalid packet recieved: ` followed by the serialised payload) is
emitted exactly when the value of the payload's `packet_type` field is
absent or falsy; in particular it is emitted for the empty-object
payload and not for a payload whose `packet_type` is `"X"`. -/
theorem c2_error_iff_packet_type_falsy :
    (∀ p : JSValue, emitsError (onmessage p) = !truthy (getField p "packet_type")) ∧
    (∀ p : JSValue, truthy (getField p "packet_type") = false →
      LogEntry.mk LogLevel.error ("Invalid packet recieved: " ++ stringify p) ∈ onmessage p) ∧
    emitsError (onmessage (JSValue.jobj [])) = true ∧
    emitsError (onmessage (JSValue.jobj [("packet_type", JSValue.jstr "X")])) = false := by
  refine ⟨fun p => ?_, fun p h => ?_, by decide, by decide⟩
  · unfold emitsError onmessage
    by_cases h : truthy (getField p "packet_type") <;> simp +decide [h, DEBUG]
  · unfold onmessage
    simp [h, DEBUG]

/-- Claim C2 (witness for the amended claim, at the empty-object
payload). -/
theorem c2_witness :
    truthy (getField (JSValue.jobj []) "packet_type") = false ∧
    LogEntry.mk LogLevel.error "Invalid packet recieved: \x7b\x7d" ∈
      onmessage (JSValue.jobj []) :=
  ⟨by decide, c2_error_iff_packet_type_falsy.2.1 (JSValue.jobj []) (by decide)⟩

/-- Claim C3: for a page address `http://` followed by anything, the
endpoint address is `ws://`, the preserved remainder, and the literal
suffix `ws`. -/
theorem c3_endpoint_http (hostpath : String) :
    computeEndpoint ("http://" ++ hostpath) = "ws://" ++ hostpath ++ "ws" := by
  apply String.ext
  simp only [computeEndpoint, documentReplace, String.data_append, data_mk]
  show replaceHttpAux
      (('h' :: 't' :: 't' :: 'p' :: ':' :: '/' :: '/' :: []) ++ hostpath.data) ++ ['w', 's'] =
    ('w' :: 's' :: ':' :: '/' :: '/' :: []) ++ hostpath.data ++ ['w', 's']
  simp only [List.cons_append, List.nil_append]
  rfl

/-- Claim C4: the debug flag is the constant `true`, so every message
produces the debug log `Packet recieved: ` followed by the serialised
payload, whatever the validation outcome; on a payload whose
`packet_type` is absent or falsy both the error log and the debug log
are emitted. -/
theorem c4_debug_always_logged :
    DEBUG = true ∧
    (∀ p : JSValue,
      LogEntry.mk LogLevel.debug ("Packet recieved: " ++ stringify p) ∈ onmessage p) ∧
    (∀ p : JSValue, truthy (getField p "packet_type") = false →
      LogEntry.mk LogLevel.error ("Invalid packet recieved: " ++ stringify p) ∈ onmessage p ∧
      LogEntry.mk LogLevel.debug ("Packet recieved: " ++ stringify p) ∈ onmessage p) := by
  refine ⟨rfl, fun p => ?_, fun p h => ⟨?_, ?_⟩⟩
  · unfold onmessage
    by_cases h : truthy (getField p "packet_type") <;> simp [h, DEBUG]
  · unfold onmessage
    simp [h, DEBUG]
  · unfold onmessage
    simp [h, DEBUG]

/-- Claim C4 (witness, at the payload `null`, which is falsy): both
the error log and the debug log are emitted. -/
theorem c4_witness :
    truthy (getField JSValue.jnull "packet_type") = false ∧
    (LogEntry.mk LogLevel.error "Invalid packet recieved: null" ∈ onmessage JSValue.jnull ∧
     LogEntry.mk LogLevel.debug "Packet recieved: null" ∈ onmessage JSValue.jnull) :=
  ⟨by decide, c4_debug_always_logged.2.2 JSValue.jnull (by decide)⟩

/-- Claim C5 (counterexample): the endpoint is not the
scheme-substituted page address followed by `/ws`: the code appends
the bare literal `ws`, without a separating slash. -/
theorem c5_no_slash_before_suffix :
    computeEndpoint "http://a/b" = "ws://a/bws" ∧
    computeEndpoint "http://a/b" ≠ documentReplace "http://a/b" ++ "/ws" := by
  constructor
  · rfl
  · decide

/-- Claim C5 (amended): on any page address and any event sequence the
program performs exactly one connection-open operation, and its target
is the scheme-substituted page address with the literal suffix `ws`
appended directly (no slash is inserted, so the target ends in `/ws`
exactly when the page address ends in `/`). -/
theorem c5_opens_single_connection (documentURI : String) (events : List Event) :
    (run documentURI events).opened = [documentReplace documentURI ++ "ws"] := by
  rw [run, foldl_handleEvent_opened]
  rfl

/-- Claim C6: the open handler emits exactly one info-level log with
the fixed message, and an open event appends exactly that entry to the
console log, leaving the handle and the set of opened connections
untouched — in particular no error-level and no debug-level entry. -/
theorem c6_onopen_single_info :
    onopen = [LogEntry.mk LogLevel.info "Websocket connection established!"] ∧
    (∀ s : ClientState,
      (handleEvent s Event.openEvt).logs =
        s.logs ++ [LogEntry.mk LogLevel.info "Websocket connection established!"] ∧
      (handleEvent s Event.openEvt).ws = s.ws ∧
      (handleEvent s Event.openEvt).opened = s.opened) ∧
    onopen.countP (fun e => e.level == LogLevel.error) = 0 ∧
    onopen.countP (fun e => e.level == LogLevel.debug) = 0 := by
  refine ⟨rfl, fun s => ⟨rfl, rfl, rfl⟩, by decide, by decide⟩

/-- Claim C7: the message handler is a total function of the payload;
it never produces anything but console output — it leaves the handle
and the opened connections untouched, appends exactly its emission
list to the console log, and that list has at least one and at most
two entries. -/
theorem c7_onmessage_logs_only (s : ClientState) (p : JSValue) :
    (handleEvent s (Event.message p)).ws = s.ws ∧
    (handleEvent s (Event.message p)).opened = s.opened ∧
    (handleEvent s (Event.message p)).logs = s.logs ++ onmessage p ∧
    (onmessage p).length ≤ 2 ∧ 1 ≤ (onmessage p).length := by
  refine ⟨rfl, rfl, rfl, ?_, ?_⟩ <;>
    (unfold onmessage;
     by_cases h : truthy (getField p "packet_type") <;> simp [h, DEBUG])

/-- Claim C8: the module-level handle `ws` is written exactly once, at
startup; no later event ever changes it, so after any event sequence
it still holds the connection opened at startup. -/
theorem c8_ws_written_once (documentURI : String) (events : List Event) :
    (run documentURI events).ws = (initState documentURI).ws ∧
    (run documentURI events).ws = some (computeEndpoint documentURI) ∧
    (∀ s : ClientState, ∀ e : Event, (handleEvent s e).ws = s.ws) := by
  refine ⟨?_, ?_, handleEvent_ws⟩
  · rw [run, foldl_handleEvent_ws]
  · rw [run, foldl_handleEvent_ws]
    rfl

/-- Claim C9: a payload whose `packet_type` field is present but
falsy (such as the empty string, `0`, `false`, or `null`) still
triggers the error log: the check is a truthiness test, not a
presence test. -/
theorem c9_falsy_packet_type_logs_error (v : JSValue) (h : truthy v = false) :
    hasField (JSValue.jobj [("packet_type", v)]) "packet_type" = true ∧
    emitsError (onmessage (JSValue.jobj [("packet_type", v)])) = true := by
  refine ⟨rfl, ?_⟩
  have hget : getField (JSValue.jobj [("packet_type", v)]) "packet_type" = v := rfl
  unfold emitsError onmessage
  simp +decide [hget, h, DEBUG]

/-- Claim C9 (witness, at each of the four falsy field values named by
the claim). -/
theorem c9_witness :
    (truthy (JSValue.jstr "") = false ∧
      emitsError (onmessage (JSValue.jobj [("packet_type", JSValue.jstr "")])) = true) ∧
    (truthy (JSValue.jnum 0) = false ∧
      emitsError (onmessage (JSValue.jobj [("packet_type", JSValue.jnum 0)])) = true) ∧
    (truthy (JSValue.jbool false) = false ∧
      emitsError (onmessage (JSValue.jobj [("packet_type", JSValue.jbool false)])) = true) ∧
    (truthy JSValue.jnull = false ∧
      emitsError (onmessage (JSValue.jobj [("packet_type", JSValue.jnull)])) = true) :=
  ⟨⟨by decide, (c9_falsy_packet_type_logs_error (JSValue.jstr "") (by decide)).2⟩,
   ⟨by decide, (c9_falsy_packet_type_logs_error (JSValue.jnum 0) (by decide)).2⟩,
   ⟨by decide, (c9_falsy_packet_type_logs_error (JSValue.jbool false) (by decide)).2⟩,
   ⟨by decide, (c9_falsy_packet_type_logs_error JSValue.jnull (by decide)).2⟩⟩

/-- Claim C10: a page address with no occurrence of the substring
`http` is passed through the substitution unchanged (so the endpoint
is the address with `ws` appended), and when the substring does occur
only its first occurrence is replaced: a prefix free of `http` passes
through untouched, whatever follows the first occurrence. -/
theorem c10_first_occurrence_only :
    (∀ s : String, containsHttp s.data = false → computeEndpoint s = s ++ "ws") ∧
    (∀ a b : String, containsHttp a.data = false →
      documentReplace (a ++ "http" ++ b) = a ++ documentReplace ("http" ++ b)) := by
  constructor
  · intro s h
    apply String.ext
    simp only [computeEndpoint, documentReplace, String.data_append, data_mk]
    rw [replaceHttpAux_of_not_contains s.data h]
  · intro a b h
    apply String.ext
    show replaceHttpAux ((a.data ++ ['h', 't', 't', 'p']) ++ b.data) =
      a.data ++ replaceHttpAux (['h', 't', 't', 'p'] ++ b.data)
    rw [List.append_assoc]
    exact replaceHttpAux_append a.data b.data h

/-- Claim C10 (witness): an address with no `http` passes through
unchanged, and in an address with two occurrences of `http` only the
first is replaced. -/
theorem c10_witness :
    (containsHttp ("gopher://a".data) = false ∧
      computeEndpoint "gopher://a" = "gopher://a" ++ "ws") ∧
    (containsHttp ("x".data) = false ∧
      documentReplace ("x" ++ "http" ++ "-http") =
        "x" ++ documentReplace ("http" ++ "-http")) :=
  ⟨⟨by decide, c10_first_occurrence_only.1 "gopher://a" (by decide)⟩,
   ⟨by decide, c10_first_occurrence_only.2 "x" "-http" (by decide)⟩⟩
